import Mathlib

/-!
Verification of the dispute phase/timeline calculator of the court-dashboard
repository (src/utils/dispute-utils.js in the source tree; `part_001` here).

The embedding translates the four functions of that module —
`getDisputeTimeLine`, `getPhaseAndTransition`, `getAdjudicationPhase`,
`getRoundPhasesAndTime` — together with the data they consume.  Timestamps and
term counts are natural numbers (integer milliseconds).  JavaScript behaviours
that matter to the claims are made explicit:

* `dispute.rounds[dispute.lastRoundId]` followed by destructuring throws a
  `TypeError` when the element is absent; the embedding returns
  `Except.error JsError.typeError` there.
* a function body that falls through every `if` returns `undefined`; the
  embedding returns `Except.ok none`.
* `dayjs(nowDate).unix() * 1000` truncates the incoming date to whole seconds;
  `toUnixMs` models it.
* reading a named property of a phase constant (a plain string/symbol value),
  as in `currentPhaseAndTime.phase.ExecuteRuling`, yields `undefined`;
  `jsPhaseProperty` models it.
-/

deriving instance DecidableEq for Except

namespace CourtDashboard

/-- The phase constants of `DisputesTypes.Phase` (types/types.js).  The module
compares them with `===`; note that `Appealing`/`ConfirmingAppeal` (returned by
`getAdjudicationPhase`) and `AppealRuling`/`ConfirmAppeal` (used by the round
ladder of `getRoundPhasesAndTime`) are distinct constants. -/
inductive Phase where
  | Created
  | Evidence
  | JuryDrafting
  | Adjudicating
  | VotingPeriod
  | RevealVote
  | Appealing
  | AppealRuling
  | ConfirmingAppeal
  | ConfirmAppeal
  | ExecuteRuling
  | ClaimRewards
  | Ruled
  deriving DecidableEq, Repr, BEq

/-- Court configuration, as consumed by the module.  `getAdjudicationPhase`
destructures a field named `appealConfirmTerms` while `getRoundPhasesAndTime`
destructures one named `appealConfirmationTerms`; both are modelled as fields
so that each function reads exactly the name the source reads. -/
structure CourtConfig where
  termDuration : Nat
  evidenceTerms : Nat
  commitTerms : Nat
  revealTerms : Nat
  appealTerms : Nat
  appealConfirmTerms : Nat
  appealConfirmationTerms : Nat
  maxRegularAppealRounds : Nat
  deriving DecidableEq, Repr

/-- One adjudication round.  Only the truthiness of `appeal` is read
(`!!round.appeal`), so it is modelled as `Option Unit`. -/
structure Round where
  number : Nat
  draftTermId : Nat
  delayedTerms : Nat
  createdAt : Nat
  appeal : Option Unit
  deriving DecidableEq, Repr

/-- A dispute as handed to the module (after
`transformResponseDisputeAttributes`): millisecond `createdAt`, a `state`
drawn from the phase constants, the ordered rounds, and `lastRoundId`. -/
structure Dispute where
  createdAt : Nat
  state : Phase
  rounds : List Round
  lastRoundId : Nat
  deriving DecidableEq, Repr

/-- Result record of `getAdjudicationPhase`: some branches return only
`phase`, leaving `nextTransition` undefined. -/
structure AdjudicationResult where
  phase : Phase
  nextTransition : Option Nat
  deriving DecidableEq, Repr

/-- Result record of `getPhaseAndTransition`; `ruling` is only ever set to
`null` (the Ruled branch) and `nextTransition` is absent in that branch. -/
structure PhaseAndTransition where
  phase : Phase
  nextTransition : Option Nat
  roundId : Nat
  ruling : Option Nat
  deriving DecidableEq, Repr

/-- The JavaScript error the module can actually raise: a `TypeError` from
reading a property of `undefined`. -/
inductive JsError where
  | typeError
  deriving DecidableEq, Repr

/-- `const juryDraftingTerms = 3` — a module-level constant, not a
`courtConfig` field. -/
def juryDraftingTerms : Nat := 3

/-- Modelled from the spec: the source imports `getTermStartTime` from
'./court-utils', a file that is not in src/.  The spec (section 4.1) uses it
only as `termStartTime(draftTermId + delayedTerms, courtConfig)` and the
glossary fixes terms as consecutive slots of length `termDuration`; the start
of term `termId` is therefore modelled as `termId * termDuration`, counting
from the court's first term at time 0. -/
def getTermStartTime (termId : Nat) (cfg : CourtConfig) : Nat :=
  termId * cfg.termDuration

/-- `dayjs(nowDate).unix() * 1000`: the incoming date, truncated to whole
seconds and re-expressed in milliseconds. -/
def toUnixMs (nowDate : Nat) : Nat :=
  nowDate / 1000 * 1000

/-- Reading a named property (such as `.ExecuteRuling` or `.ClaimRewards`) of
a phase constant: phase constants are plain string/symbol values carrying no
such properties, so the access yields `undefined`. -/
def jsPhaseProperty (_p : Phase) (_propName : String) : Option Phase :=
  none

/-- `getAdjudicationPhase(dispute, round, now, draftTermEndTime, courtConfig)`
(source lines 187-260), the sequential deadline ladder.  `now` here is the
already-converted value computed by the caller. -/
def getAdjudicationPhase (dispute : Dispute) (round : Round) (now : Nat)
    (draftTermEndTime : Nat) (cfg : CourtConfig) : AdjudicationResult :=
  let numberOfRounds := dispute.rounds.length
  let revealTermStartTime := draftTermEndTime + cfg.commitTerms * cfg.termDuration
  if now < revealTermStartTime then
    { phase := Phase.VotingPeriod, nextTransition := some revealTermStartTime }
  else
    let appealTermStartTime := revealTermStartTime + cfg.revealTerms * cfg.termDuration
    if now < appealTermStartTime then
      { phase := Phase.RevealVote, nextTransition := some appealTermStartTime }
    else if numberOfRounds > cfg.maxRegularAppealRounds then
      { phase := Phase.ExecuteRuling, nextTransition := none }
    else
      let isLastRoundAppealed := round.appeal.isSome
      let appealConfirmationTermStartTime :=
        appealTermStartTime + cfg.appealTerms * cfg.termDuration
      if !isLastRoundAppealed then
        if now < appealConfirmationTermStartTime then
          { phase := Phase.Appealing, nextTransition := some appealConfirmationTermStartTime }
        else
          { phase := Phase.ExecuteRuling, nextTransition := none }
      else
        let appealConfirmationTermEndTime :=
          appealConfirmationTermStartTime + cfg.appealConfirmTerms * cfg.termDuration
        if now < appealConfirmationTermEndTime then
          { phase := Phase.ConfirmingAppeal, nextTransition := some appealConfirmationTermEndTime }
        else
          { phase := Phase.ExecuteRuling, nextTransition := none }

/-- `getPhaseAndTransition(dispute, courtConfig, nowDate)` (source lines
124-185).  The last round is destructured before any state dispatch, so a
missing `rounds[lastRoundId]` throws for every state; a state matching none of
Ruled / Evidence / JuryDrafting / Adjudicating falls through and returns
`undefined` (`Except.ok none`). -/
def getPhaseAndTransition (dispute : Dispute) (cfg : CourtConfig)
    (nowDate : Nat) : Except JsError (Option PhaseAndTransition) :=
  let now := toUnixMs nowDate
  match dispute.rounds[dispute.lastRoundId]? with
  | none => Except.error JsError.typeError
  | some lastRound =>
    if dispute.state = Phase.Ruled then
      Except.ok (some { phase := Phase.ClaimRewards, nextTransition := none,
                        roundId := lastRound.number, ruling := none })
    else if dispute.state = Phase.Evidence then
      let evidenceSubmissionEndTime :=
        dispute.createdAt + cfg.termDuration * cfg.evidenceTerms
      if evidenceSubmissionEndTime < now then
        Except.ok (some
          { phase := Phase.JuryDrafting,
            nextTransition :=
              some (evidenceSubmissionEndTime + cfg.termDuration * juryDraftingTerms),
            roundId := lastRound.number, ruling := none })
      else
        Except.ok (some
          { phase := Phase.Evidence,
            nextTransition := some evidenceSubmissionEndTime,
            roundId := lastRound.number, ruling := none })
    else if dispute.state = Phase.JuryDrafting then
      Except.ok (some
        { phase := Phase.JuryDrafting,
          nextTransition :=
            some (lastRound.createdAt + cfg.termDuration * juryDraftingTerms),
          roundId := lastRound.number, ruling := none })
    else if dispute.state = Phase.Adjudicating then
      let draftTermEndTime :=
        getTermStartTime (lastRound.draftTermId + lastRound.delayedTerms) cfg
      let adj := getAdjudicationPhase dispute lastRound now draftTermEndTime cfg
      Except.ok (some { phase := adj.phase, nextTransition := adj.nextTransition,
                        roundId := lastRound.number, ruling := none })
    else
      Except.ok none

/-- One entry of the per-round phase ladder built by
`getRoundPhasesAndTime`. -/
structure RoundEntry where
  phase : Phase
  endTime : Nat
  active : Bool
  roundId : Nat
  deriving DecidableEq, Repr

/-- `getRoundPhasesAndTime(courtConfig, round, currentPhase)` (source lines
262-325).  `findIndex` returning `-1` followed by `slice(0, -1 + 1)` yields
the empty array; the `match` below mirrors that. -/
def getRoundPhasesAndTime (cfg : CourtConfig) (round : Round)
    (currentPhase : PhaseAndTransition) : List RoundEntry :=
  let disputeDraftTermTime :=
    getTermStartTime (round.draftTermId + round.delayedTerms) cfg
  let roundPhasesAndTime : List RoundEntry :=
    [ { phase := Phase.JuryDrafting,
        endTime := round.createdAt + cfg.termDuration * juryDraftingTerms,
        active := Phase.JuryDrafting == currentPhase.phase,
        roundId := round.number },
      { phase := Phase.VotingPeriod,
        endTime := disputeDraftTermTime + cfg.termDuration * cfg.commitTerms,
        active := Phase.VotingPeriod == currentPhase.phase,
        roundId := round.number },
      { phase := Phase.RevealVote,
        endTime := disputeDraftTermTime +
          cfg.termDuration * (cfg.commitTerms + cfg.revealTerms),
        active := Phase.RevealVote == currentPhase.phase,
        roundId := round.number },
      { phase := Phase.AppealRuling,
        endTime := disputeDraftTermTime +
          cfg.termDuration * (cfg.commitTerms + cfg.revealTerms + cfg.appealTerms),
        active := Phase.AppealRuling == currentPhase.phase,
        roundId := round.number },
      { phase := Phase.ConfirmAppeal,
        endTime := disputeDraftTermTime +
          cfg.termDuration * (cfg.commitTerms + cfg.revealTerms +
            cfg.appealTerms + cfg.appealConfirmationTerms),
        active := Phase.ConfirmAppeal == currentPhase.phase,
        roundId := round.number } ]
  if round.number < currentPhase.roundId then
    roundPhasesAndTime
  else
    match roundPhasesAndTime.findIdx? (fun e => e.phase == currentPhase.phase) with
    | some i => roundPhasesAndTime.take (i + 1)
    | none => []

/-- A dispute-level timeline entry; the `Created` entry carries no `active`
field and the trailing entries carry no `endTime`, hence the `Option`s. -/
structure TLEntry where
  phase : Phase
  endTime : Option Nat
  active : Option Bool
  deriving DecidableEq, Repr

/-- The array built by `getDisputeTimeLine`, in order: the `Created` and
`Evidence` entries, then (unless the early return fired) the nested array of
per-round ladders pushed as a single element, then an optional trailing
dispute-level entry. -/
structure TimeLine where
  created : TLEntry
  evidence : TLEntry
  rounds : Option (List (List RoundEntry))
  trailing : Option TLEntry
  deriving DecidableEq, Repr

/-- `getDisputeTimeLine(dispute, courtConfig)` (source lines 66-122).  The
source reads the wall clock itself — `getPhaseAndTransition(dispute,
courtConfig, new Date())` — so the clock reading is an explicit `clock`
argument here.  When `getPhaseAndTransition` returns `undefined`, the access
`currentPhaseAndTime.phase` throws.  The trailing-entry guards compare a phase
constant against a named property of the current phase value
(`currentPhaseAndTime.phase.ExecuteRuling`, `.ClaimRewards`). -/
def getDisputeTimeLine (dispute : Dispute) (cfg : CourtConfig)
    (clock : Nat) : Except JsError TimeLine :=
  match getPhaseAndTransition dispute cfg clock with
  | Except.error e => Except.error e
  | Except.ok none => Except.error JsError.typeError
  | Except.ok (some currentPhaseAndTime) =>
    let created : TLEntry :=
      { phase := Phase.Created, endTime := some dispute.createdAt, active := none }
    let evidence : TLEntry :=
      { phase := Phase.Evidence,
        endTime := some (dispute.createdAt + cfg.termDuration * cfg.evidenceTerms),
        active := some (currentPhaseAndTime.phase == Phase.Evidence) }
    let rounds :=
      dispute.rounds.map (fun round => getRoundPhasesAndTime cfg round currentPhaseAndTime)
    if rounds.length = 0 then
      Except.ok { created := created, evidence := evidence,
                  rounds := none, trailing := none }
    else if some Phase.ExecuteRuling =
        jsPhaseProperty currentPhaseAndTime.phase "ExecuteRuling" then
      Except.ok
        { created := created, evidence := evidence, rounds := some rounds,
          trailing := some
            { phase := Phase.ExecuteRuling, endTime := none,
              active := some (decide (some Phase.ExecuteRuling =
                jsPhaseProperty currentPhaseAndTime.phase "ExecuteRuling")) } }
    else if some Phase.ClaimRewards =
        jsPhaseProperty currentPhaseAndTime.phase "ClaimRewards" then
      Except.ok
        { created := created, evidence := evidence, rounds := some rounds,
          trailing := some
            { phase := Phase.ClaimRewards, endTime := none,
              active := some (currentPhaseAndTime.phase == Phase.ClaimRewards) } }
    else
      Except.ok { created := created, evidence := evidence, rounds := some rounds,
                  trailing := none }

/-- Claim C1: for a dispute in state Adjudicating with non-empty rounds, the
adjudication sub-phase resolver follows the sequential deadline ladder from
`draftTermEndTime`: before the commit boundary it returns VotingPeriod with
that boundary as nextTransition; before the reveal boundary it returns
RevealVote with that boundary; past the reveal boundary, when
`rounds.length <= maxRegularAppealRounds`, an unappealed round yields
Appealing until the appeal boundary and ExecuteRuling past it, and an
appealed round yields ConfirmingAppeal until the appeal-confirm boundary and
ExecuteRuling past it. -/
theorem c1_adjudication_ladder (d : Dispute) (r : Round) (cfg : CourtConfig)
    (now dte : Nat)
    (_hstate : d.state = Phase.Adjudicating) (_hrounds : d.rounds ≠ []) :
    (now < dte + cfg.commitTerms * cfg.termDuration →
      getAdjudicationPhase d r now dte cfg =
        { phase := Phase.VotingPeriod,
          nextTransition := some (dte + cfg.commitTerms * cfg.termDuration) }) ∧
    (dte + cfg.commitTerms * cfg.termDuration ≤ now →
      now < dte + cfg.commitTerms * cfg.termDuration
        + cfg.revealTerms * cfg.termDuration →
      getAdjudicationPhase d r now dte cfg =
        { phase := Phase.RevealVote,
          nextTransition := some (dte + cfg.commitTerms * cfg.termDuration
            + cfg.revealTerms * cfg.termDuration) }) ∧
    (dte + cfg.commitTerms * cfg.termDuration
        + cfg.revealTerms * cfg.termDuration ≤ now →
      d.rounds.length ≤ cfg.maxRegularAppealRounds →
      r.appeal = none →
      (now < dte + cfg.commitTerms * cfg.termDuration
          + cfg.revealTerms * cfg.termDuration
          + cfg.appealTerms * cfg.termDuration →
        getAdjudicationPhase d r now dte cfg =
          { phase := Phase.Appealing,
            nextTransition := some (dte + cfg.commitTerms * cfg.termDuration
              + cfg.revealTerms * cfg.termDuration
              + cfg.appealTerms * cfg.termDuration) }) ∧
      (dte + cfg.commitTerms * cfg.termDuration
          + cfg.revealTerms * cfg.termDuration
          + cfg.appealTerms * cfg.termDuration ≤ now →
        getAdjudicationPhase d r now dte cfg =
          { phase := Phase.ExecuteRuling, nextTransition := none })) ∧
    (dte + cfg.commitTerms * cfg.termDuration
        + cfg.revealTerms * cfg.termDuration ≤ now →
      d.rounds.length ≤ cfg.maxRegularAppealRounds →
      r.appeal ≠ none →
      (now < dte + cfg.commitTerms * cfg.termDuration
          + cfg.revealTerms * cfg.termDuration
          + cfg.appealTerms * cfg.termDuration
          + cfg.appealConfirmTerms * cfg.termDuration →
        getAdjudicationPhase d r now dte cfg =
          { phase := Phase.ConfirmingAppeal,
            nextTransition := some (dte + cfg.commitTerms * cfg.termDuration
              + cfg.revealTerms * cfg.termDuration
              + cfg.appealTerms * cfg.termDuration
              + cfg.appealConfirmTerms * cfg.termDuration) }) ∧
      (dte + cfg.commitTerms * cfg.termDuration
          + cfg.revealTerms * cfg.termDuration
          + cfg.appealTerms * cfg.termDuration
          + cfg.appealConfirmTerms * cfg.termDuration ≤ now →
        getAdjudicationPhase d r now dte cfg =
          { phase := Phase.ExecuteRuling, nextTransition := none })) := by
  refine ⟨?_, ?_, ?_, ?_⟩
  · intro h1
    simp only [getAdjudicationPhase]
    rw [if_pos h1]
  · intro h1 h2
    simp only [getAdjudicationPhase]
    rw [if_neg (by omega), if_pos h2]
  · intro h2 hcap happ
    constructor <;> intro h3 <;>
      simp only [getAdjudicationPhase, happ, Option.isSome_none, Bool.not_false] <;>
      split_ifs <;> first | rfl | omega
  · intro h2 hcap happ
    obtain ⟨u, hu⟩ := Option.ne_none_iff_exists'.mp happ
    constructor <;> intro h4 <;>
      simp only [getAdjudicationPhase, hu, Option.isSome_some, Bool.not_true] <;>
      split_ifs <;> first | rfl | omega | simp_all

/-! Concrete fixtures used by the witnesses and counterexamples.  Term
durations are whole-second multiples, as every timestamp the dashboard
produces is. -/

/-- A configuration with two terms for every stage and at most one regular
appeal round. -/
def exCfg : CourtConfig :=
  { termDuration := 10000, evidenceTerms := 2, commitTerms := 2, revealTerms := 2,
    appealTerms := 2, appealConfirmTerms := 2, appealConfirmationTerms := 2,
    maxRegularAppealRounds := 1 }

/-- An unappealed first round drafted at term 3 (draft term end 30000). -/
def exRound0 : Round :=
  { number := 0, draftTermId := 3, delayedTerms := 0, createdAt := 0, appeal := none }

/-- The same round, appealed. -/
def exRound0App : Round :=
  { number := 0, draftTermId := 3, delayedTerms := 0, createdAt := 0, appeal := some () }

/-- A second round, making the round count exceed `maxRegularAppealRounds`. -/
def exRound1 : Round :=
  { number := 1, draftTermId := 6, delayedTerms := 0, createdAt := 40000, appeal := none }

/-- A dispute in the Evidence state (evidence ends at 20000). -/
def exDisputeEvidence : Dispute :=
  { createdAt := 0, state := Phase.Evidence, rounds := [exRound0], lastRoundId := 0 }

/-- A one-round dispute in the Adjudicating state. -/
def exDisputeAdj : Dispute :=
  { createdAt := 0, state := Phase.Adjudicating, rounds := [exRound0], lastRoundId := 0 }

/-- A two-round Adjudicating dispute, past the regular-appeal cap. -/
def exDisputeAdj2 : Dispute :=
  { createdAt := 0, state := Phase.Adjudicating, rounds := [exRound0, exRound1],
    lastRoundId := 1 }

/-- A ruled dispute. -/
def exDisputeRuled : Dispute :=
  { createdAt := 0, state := Phase.Ruled, rounds := [exRound0], lastRoundId := 0 }

/-- A dispute whose state matches none of the four dispatched states. -/
def exDisputeCreated : Dispute :=
  { createdAt := 0, state := Phase.Created, rounds := [exRound0], lastRoundId := 0 }

/-- A dispute with no rounds at all. -/
def exDisputeEmpty : Dispute :=
  { createdAt := 0, state := Phase.Evidence, rounds := [], lastRoundId := 0 }

/-- Witness for C1: with draft term end 30000 and two commit terms of 10000,
time 45000 lies in the voting window and 75000 in the appeal-confirm window of
the appealed round. -/
theorem c1_adjudication_ladder_witness :
    getAdjudicationPhase exDisputeAdj exRound0 45000 30000 exCfg =
      { phase := Phase.VotingPeriod, nextTransition := some 50000 } ∧
    getAdjudicationPhase exDisputeAdj exRound0App 75000 30000 exCfg =
      { phase := Phase.ConfirmingAppeal, nextTransition := some 110000 } :=
  ⟨(c1_adjudication_ladder exDisputeAdj exRound0 exCfg 45000 30000 rfl
      (by decide)).1 (by decide),
   ((c1_adjudication_ladder exDisputeAdj exRound0App exCfg 75000 30000 rfl
      (by decide)).2.2.2 (by decide) (by decide) (by decide)).1 (by decide)⟩

/-- Claim C2 (amended): every boundary of the adjudication ladder — commit,
reveal, appeal, appeal-confirm — is compared strictly (`now < boundary`), so
at a time exactly equal to such a boundary the resolver returns the next
stage, never the stage that just ended; the evidence-submission end is the
exception: there the comparison is `now > end`, so at exactly that boundary
the phase is still Evidence. -/
theorem c2_boundary_strictness (d : Dispute) (r : Round) (cfg : CourtConfig)
    (dte : Nat) (dE : Dispute) (rE : Round) (cfgE : CourtConfig)
    (hE1 : dE.state = Phase.Evidence)
    (hE2 : dE.rounds[dE.lastRoundId]? = some rE) :
    (0 < cfg.revealTerms * cfg.termDuration →
      getAdjudicationPhase d r (dte + cfg.commitTerms * cfg.termDuration) dte cfg =
        { phase := Phase.RevealVote,
          nextTransition := some (dte + cfg.commitTerms * cfg.termDuration
            + cfg.revealTerms * cfg.termDuration) }) ∧
    ((getAdjudicationPhase d r (dte + cfg.commitTerms * cfg.termDuration
        + cfg.revealTerms * cfg.termDuration) dte cfg).phase ≠ Phase.RevealVote ∧
     (getAdjudicationPhase d r (dte + cfg.commitTerms * cfg.termDuration
        + cfg.revealTerms * cfg.termDuration) dte cfg).phase ≠ Phase.VotingPeriod) ∧
    (d.rounds.length ≤ cfg.maxRegularAppealRounds → r.appeal = none →
      0 < cfg.appealTerms * cfg.termDuration →
      getAdjudicationPhase d r (dte + cfg.commitTerms * cfg.termDuration
          + cfg.revealTerms * cfg.termDuration) dte cfg =
        { phase := Phase.Appealing,
          nextTransition := some (dte + cfg.commitTerms * cfg.termDuration
            + cfg.revealTerms * cfg.termDuration
            + cfg.appealTerms * cfg.termDuration) }) ∧
    (d.rounds.length ≤ cfg.maxRegularAppealRounds → r.appeal = none →
      getAdjudicationPhase d r (dte + cfg.commitTerms * cfg.termDuration
          + cfg.revealTerms * cfg.termDuration
          + cfg.appealTerms * cfg.termDuration) dte cfg =
        { phase := Phase.ExecuteRuling, nextTransition := none }) ∧
    (d.rounds.length ≤ cfg.maxRegularAppealRounds → r.appeal ≠ none →
      0 < cfg.appealConfirmTerms * cfg.termDuration →
      getAdjudicationPhase d r (dte + cfg.commitTerms * cfg.termDuration
          + cfg.revealTerms * cfg.termDuration
          + cfg.appealTerms * cfg.termDuration) dte cfg =
        { phase := Phase.ConfirmingAppeal,
          nextTransition := some (dte + cfg.commitTerms * cfg.termDuration
            + cfg.revealTerms * cfg.termDuration
            + cfg.appealTerms * cfg.termDuration
            + cfg.appealConfirmTerms * cfg.termDuration) }) ∧
    (d.rounds.length ≤ cfg.maxRegularAppealRounds → r.appeal ≠ none →
      getAdjudicationPhase d r (dte + cfg.commitTerms * cfg.termDuration
          + cfg.revealTerms * cfg.termDuration
          + cfg.appealTerms * cfg.termDuration
          + cfg.appealConfirmTerms * cfg.termDuration) dte cfg =
        { phase := Phase.ExecuteRuling, nextTransition := none }) ∧
    (1000 ∣ dE.createdAt + cfgE.termDuration * cfgE.evidenceTerms →
      getPhaseAndTransition dE cfgE
          (dE.createdAt + cfgE.termDuration * cfgE.evidenceTerms) =
        Except.ok (some
          { phase := Phase.Evidence,
            nextTransition :=
              some (dE.createdAt + cfgE.termDuration * cfgE.evidenceTerms),
            roundId := rE.number, ruling := none })) := by
  refine ⟨?_, ⟨?_, ?_⟩, ?_, ?_, ?_, ?_, ?_⟩
  · intro hpos
    simp only [getAdjudicationPhase]
    rw [if_neg (by omega), if_pos (by omega)]
  · simp only [getAdjudicationPhase]
    split_ifs <;> first | omega | simp
  · simp only [getAdjudicationPhase]
    split_ifs <;> first | omega | simp
  · intro hcap happ hpos
    simp only [getAdjudicationPhase, happ, Option.isSome_none, Bool.not_false]
    split_ifs <;> first | rfl | omega
  · intro hcap happ
    simp only [getAdjudicationPhase, happ, Option.isSome_none, Bool.not_false]
    split_ifs <;> first | rfl | omega
  · intro hcap happ hpos
    obtain ⟨u, hu⟩ := Option.ne_none_iff_exists'.mp happ
    simp only [getAdjudicationPhase, hu, Option.isSome_some, Bool.not_true]
    split_ifs <;> first | rfl | omega | simp_all
  · intro hcap happ
    obtain ⟨u, hu⟩ := Option.ne_none_iff_exists'.mp happ
    simp only [getAdjudicationPhase, hu, Option.isSome_some, Bool.not_true]
    split_ifs <;> first | rfl | omega
  · intro hdvd
    simp only [getPhaseAndTransition, hE2]
    rw [if_neg (by simp [hE1]), if_pos hE1]
    simp only [toUnixMs]
    rw [if_neg (by omega)]

/-- Counterexample to C2 as stated: with evidence ending at 20000, the
resolver evaluated at exactly that boundary still returns phase Evidence —
the stage that, per the claim, should just have ended — not JuryDrafting. -/
theorem c2_counterexample :
    getPhaseAndTransition exDisputeEvidence exCfg 20000 =
      Except.ok (some { phase := Phase.Evidence, nextTransition := some 20000,
                        roundId := 0, ruling := none }) := by
  decide

/-- Witness for the amended C2: the commit boundary (50000) already shows
RevealVote, while the evidence boundary (20000) still shows Evidence. -/
theorem c2_boundary_strictness_witness :
    getAdjudicationPhase exDisputeAdj exRound0 50000 30000 exCfg =
      { phase := Phase.RevealVote, nextTransition := some 70000 } ∧
    getPhaseAndTransition exDisputeEvidence exCfg 20000 =
      Except.ok (some { phase := Phase.Evidence, nextTransition := some 20000,
                        roundId := 0, ruling := none }) :=
  ⟨(c2_boundary_strictness exDisputeAdj exRound0 exCfg 30000
      exDisputeEvidence exRound0 exCfg rfl rfl).1 (by decide),
   (c2_boundary_strictness exDisputeAdj exRound0 exCfg 30000
      exDisputeEvidence exRound0 exCfg rfl rfl).2.2.2.2.2.2 (by decide)⟩
/-- Claim C4: on an Evidence-state dispute, the resolver computes
`evidenceEnd = createdAt + termDuration * evidenceTerms`; strictly past it the
phase is JuryDrafting with `nextTransition = evidenceEnd + termDuration * 3`
(the module constant `juryDraftingTerms = 3`, not a config field), otherwise —
in particular for every time before `evidenceEnd` — the phase is Evidence with
`nextTransition = evidenceEnd`.  `nowDate` is a whole-second timestamp, as the
source's `dayjs(nowDate).unix() * 1000` conversion presupposes. -/
theorem c4_evidence_phase (d : Dispute) (cfg : CourtConfig) (r : Round)
    (nowDate : Nat)
    (hstate : d.state = Phase.Evidence)
    (hr : d.rounds[d.lastRoundId]? = some r)
    (hsec : 1000 ∣ nowDate) :
    (d.createdAt + cfg.termDuration * cfg.evidenceTerms < nowDate →
      getPhaseAndTransition d cfg nowDate =
        Except.ok (some
          { phase := Phase.JuryDrafting,
            nextTransition := some (d.createdAt + cfg.termDuration * cfg.evidenceTerms
              + cfg.termDuration * juryDraftingTerms),
            roundId := r.number, ruling := none })) ∧
    (nowDate ≤ d.createdAt + cfg.termDuration * cfg.evidenceTerms →
      getPhaseAndTransition d cfg nowDate =
        Except.ok (some
          { phase := Phase.Evidence,
            nextTransition := some (d.createdAt + cfg.termDuration * cfg.evidenceTerms),
            roundId := r.number, ruling := none })) := by
  have hmul : toUnixMs nowDate = nowDate := by
    simp only [toUnixMs]
    exact Nat.div_mul_cancel hsec
  constructor <;> intro h <;>
    simp only [getPhaseAndTransition, hr, hmul] <;>
    rw [if_neg (by simp [hstate]), if_pos hstate]
  · rw [if_pos h]
  · rw [if_neg (by omega)]

/-- Witness for C4: evidence ends at 20000; at 30000 the phase is
JuryDrafting with the 3-term allowance ending at 50000. -/
theorem c4_evidence_phase_witness :
    getPhaseAndTransition exDisputeEvidence exCfg 30000 =
      Except.ok (some { phase := Phase.JuryDrafting, nextTransition := some 50000,
                        roundId := 0, ruling := none }) :=
  (c4_evidence_phase exDisputeEvidence exCfg exRound0 30000 rfl rfl
    (by decide)).1 (by decide)

/-- Claim C5: once the round count exceeds `maxRegularAppealRounds`, any time
at or past the reveal boundary resolves to ExecuteRuling, however large `now`
is and whether or not the round carries an appeal. -/
theorem c5_max_appeal_reached (d : Dispute) (r : Round) (cfg : CourtConfig)
    (now dte : Nat)
    (hcap : d.rounds.length > cfg.maxRegularAppealRounds)
    (hnow : dte + (cfg.commitTerms + cfg.revealTerms) * cfg.termDuration ≤ now) :
    getAdjudicationPhase d r now dte cfg =
      { phase := Phase.ExecuteRuling, nextTransition := none } := by
  rw [Nat.add_mul] at hnow
  simp only [getAdjudicationPhase]
  rw [if_neg (by omega), if_neg (by omega), if_pos hcap]

/-- Witness for C5: two rounds against a one-round cap; at 200000, far past
the reveal boundary 70000, the phase is ExecuteRuling (the last round is
unappealed, which does not matter). -/
theorem c5_max_appeal_reached_witness :
    getAdjudicationPhase exDisputeAdj2 exRound1 200000 30000 exCfg =
      { phase := Phase.ExecuteRuling, nextTransition := none } :=
  c5_max_appeal_reached exDisputeAdj2 exRound1 exCfg 200000 30000
    (by decide) (by decide)

/-- Claim C7: a dispute whose state matches none of Ruled, Evidence,
JuryDrafting or Adjudicating falls through every branch of
`getPhaseAndTransition` and returns `undefined` — no error is raised, provided
the last-round access itself succeeds. -/
theorem c7_unknown_state_undefined (d : Dispute) (cfg : CourtConfig) (r : Round)
    (nowDate : Nat)
    (hr : d.rounds[d.lastRoundId]? = some r)
    (h1 : d.state ≠ Phase.Ruled) (h2 : d.state ≠ Phase.Evidence)
    (h3 : d.state ≠ Phase.JuryDrafting) (h4 : d.state ≠ Phase.Adjudicating) :
    getPhaseAndTransition d cfg nowDate = Except.ok none := by
  simp only [getPhaseAndTransition, hr]
  rw [if_neg h1, if_neg h2, if_neg h3, if_neg h4]

/-- Witness for C7: the `Created` state — a real phase constant outside the
four dispatched states — yields `undefined`. -/
theorem c7_unknown_state_undefined_witness :
    getPhaseAndTransition exDisputeCreated exCfg 0 = Except.ok none :=
  c7_unknown_state_undefined exDisputeCreated exCfg exRound0 0 rfl
    (by decide) (by decide) (by decide) (by decide)

/-- Claim C10: with an empty rounds list the last round is destructured as
`undefined` before any state dispatch, so `getPhaseAndTransition` throws for
every state — including Evidence and Ruled — and `getDisputeTimeLine`, which
calls it before its own `rounds.length === 0` check, throws too: the
empty-rounds early return (a two-entry timeline) is unreachable. -/
theorem c10_empty_rounds_throws (d : Dispute) (cfg : CourtConfig)
    (nowDate clock : Nat) (hempty : d.rounds = []) :
    getPhaseAndTransition d cfg nowDate = Except.error JsError.typeError ∧
    getDisputeTimeLine d cfg clock = Except.error JsError.typeError := by
  have hnone : d.rounds[d.lastRoundId]? = none := by
    rw [hempty]
    simp
  constructor
  · simp only [getPhaseAndTransition, hnone]
  · simp only [getDisputeTimeLine, getPhaseAndTransition, hnone]

/-- Witness for C10: an Evidence-state dispute with no rounds throws a
TypeError from both entry points instead of returning the two-entry
timeline. -/
theorem c10_empty_rounds_throws_witness :
    getPhaseAndTransition exDisputeEmpty exCfg 0 = Except.error JsError.typeError ∧
    getDisputeTimeLine exDisputeEmpty exCfg 0 = Except.error JsError.typeError :=
  c10_empty_rounds_throws exDisputeEmpty exCfg 0 0 rfl
/-- Rank of each phase in the ordered sequence of the spec: Evidence,
JuryDrafting, VotingPeriod, RevealVote, Appealing, ConfirmingAppeal,
ExecuteRuling, ClaimRewards.  Phases the resolver never returns are given
rank 0. -/
def phaseRank : Phase → Nat
  | Phase.Evidence => 0
  | Phase.JuryDrafting => 1
  | Phase.VotingPeriod => 2
  | Phase.RevealVote => 3
  | Phase.Appealing => 4
  | Phase.ConfirmingAppeal => 5
  | Phase.ExecuteRuling => 6
  | Phase.ClaimRewards => 7
  | _ => 0

/-- The adjudication ladder never regresses: for a fixed dispute, round,
draft-term end and config, the rank of the returned phase is monotone in
`now`. -/
theorem adjudication_rank_mono (d : Dispute) (r : Round) (cfg : CourtConfig)
    (dte n1 n2 : Nat) (h : n1 ≤ n2) :
    phaseRank (getAdjudicationPhase d r n1 dte cfg).phase ≤
      phaseRank (getAdjudicationPhase d r n2 dte cfg).phase := by
  simp only [getAdjudicationPhase]
  split_ifs <;> simp only [phaseRank] <;> omega

/-- Claim C8: for a fixed dispute and config, the phase returned by
`getPhaseAndTransition` is monotonically non-decreasing in the supplied time,
with respect to the ordered phase sequence `phaseRank` encodes. -/
theorem c8_phase_monotone (d : Dispute) (cfg : CourtConfig)
    (nowDate1 nowDate2 : Nat) (p1 p2 : PhaseAndTransition)
    (hle : nowDate1 ≤ nowDate2)
    (h1 : getPhaseAndTransition d cfg nowDate1 = Except.ok (some p1))
    (h2 : getPhaseAndTransition d cfg nowDate2 = Except.ok (some p2)) :
    phaseRank p1.phase ≤ phaseRank p2.phase := by
  have hmono : toUnixMs nowDate1 ≤ toUnixMs nowDate2 := by
    simp only [toUnixMs]
    omega
  simp only [getPhaseAndTransition] at h1 h2
  cases hrv : d.rounds[d.lastRoundId]? with
  | none =>
    simp only [hrv] at h1
    exact absurd h1 (by simp)
  | some r =>
    simp only [hrv] at h1 h2
    by_cases hs1 : d.state = Phase.Ruled
    · rw [if_pos hs1] at h1 h2
      simp only [Except.ok.injEq, Option.some.injEq] at h1 h2
      subst h1
      subst h2
      exact le_refl _
    · rw [if_neg hs1] at h1 h2
      by_cases hs2 : d.state = Phase.Evidence
      · rw [if_pos hs2] at h1 h2
        by_cases hc2 : d.createdAt + cfg.termDuration * cfg.evidenceTerms <
            toUnixMs nowDate2
        · rw [if_pos hc2] at h2
          simp only [Except.ok.injEq, Option.some.injEq] at h2
          subst h2
          by_cases hc1 : d.createdAt + cfg.termDuration * cfg.evidenceTerms <
              toUnixMs nowDate1
          · rw [if_pos hc1] at h1
            simp only [Except.ok.injEq, Option.some.injEq] at h1
            subst h1
            exact le_refl _
          · rw [if_neg hc1] at h1
            simp only [Except.ok.injEq, Option.some.injEq] at h1
            subst h1
            simp [phaseRank]
        · rw [if_neg hc2] at h2
          have hc1 : ¬ d.createdAt + cfg.termDuration * cfg.evidenceTerms <
              toUnixMs nowDate1 := by omega
          rw [if_neg hc1] at h1
          simp only [Except.ok.injEq, Option.some.injEq] at h1 h2
          subst h1
          subst h2
          exact le_refl _
      · rw [if_neg hs2] at h1 h2
        by_cases hs3 : d.state = Phase.JuryDrafting
        · rw [if_pos hs3] at h1 h2
          simp only [Except.ok.injEq, Option.some.injEq] at h1 h2
          subst h1
          subst h2
          exact le_refl _
        · rw [if_neg hs3] at h1 h2
          by_cases hs4 : d.state = Phase.Adjudicating
          · rw [if_pos hs4] at h1 h2
            simp only [Except.ok.injEq, Option.some.injEq] at h1 h2
            subst h1
            subst h2
            exact adjudication_rank_mono d r cfg
              (getTermStartTime (r.draftTermId + r.delayedTerms) cfg)
              (toUnixMs nowDate1) (toUnixMs nowDate2) hmono
          · rw [if_neg hs4] at h1
            exact absurd h1 (by simp)

/-- Witness for C8: on the Evidence-state fixture the phase moves from
Evidence (rank 0) at time 0 to JuryDrafting (rank 1) at time 30000. -/
theorem c8_phase_monotone_witness :
    phaseRank Phase.Evidence ≤ phaseRank Phase.JuryDrafting :=
  c8_phase_monotone exDisputeEvidence exCfg 0 30000
    { phase := Phase.Evidence, nextTransition := some 20000, roundId := 0,
      ruling := none }
    { phase := Phase.JuryDrafting, nextTransition := some 50000, roundId := 0,
      ruling := none }
    (by decide) (by decide) (by decide)
/-- Claim C9 (amended): `getPhaseAndTransition` takes its time from the
caller, but `getDisputeTimeLine` reads the wall clock itself
(`new Date()`), so its output is not independent of the clock; it depends on
the clock reading only through the second-truncated `now` that reading
becomes inside `getPhaseAndTransition`, and is deterministic for a fixed
reading. -/
theorem c9_clock_dependence (d : Dispute) (cfg : CourtConfig) (t1 t2 : Nat)
    (h : toUnixMs t1 = toUnixMs t2) :
    getDisputeTimeLine d cfg t1 = getDisputeTimeLine d cfg t2 := by
  have hpt : getPhaseAndTransition d cfg t1 = getPhaseAndTransition d cfg t2 := by
    simp only [getPhaseAndTransition, h]
  simp only [getDisputeTimeLine, hpt]

/-- Counterexample to C9 as stated: identical dispute and config, two
wall-clock readings (0 and 30000), structurally different timelines — the
Evidence entry's `active` flag and the current round's ladder differ. -/
theorem c9_counterexample :
    getDisputeTimeLine exDisputeEvidence exCfg 0 ≠
      getDisputeTimeLine exDisputeEvidence exCfg 30000 := by
  decide

/-- Witness for the amended C9: clock readings 0 and 999 truncate to the same
second, so the timelines coincide. -/
theorem c9_clock_dependence_witness :
    getDisputeTimeLine exDisputeEvidence exCfg 0 =
      getDisputeTimeLine exDisputeEvidence exCfg 999 :=
  c9_clock_dependence exDisputeEvidence exCfg 0 999 rfl

/-- Claim C3 names the intended behavior, but the code never appends the
trailing dispute-level entries: its guards compare
`Phase.ExecuteRuling` / `Phase.ClaimRewards` against a named property of the
current phase value (`currentPhaseAndTime.phase.ExecuteRuling`), which is
`undefined`, so both guards are always false.  A Ruled dispute (current phase
ClaimRewards) and a capped Adjudicating dispute (current phase ExecuteRuling)
both end their timelines with no trailing entry. -/
theorem c3_trailing_never_appended :
    (getPhaseAndTransition exDisputeRuled exCfg 0).map
        (Option.map PhaseAndTransition.phase) =
      Except.ok (some Phase.ClaimRewards) ∧
    (getDisputeTimeLine exDisputeRuled exCfg 0).map TimeLine.trailing =
      Except.ok none ∧
    (getPhaseAndTransition exDisputeAdj2 exCfg 200000).map
        (Option.map PhaseAndTransition.phase) =
      Except.ok (some Phase.ExecuteRuling) ∧
    (getDisputeTimeLine exDisputeAdj2 exCfg 200000).map TimeLine.trailing =
      Except.ok none := by
  decide

/-- Claim C6 (amended): a round strictly before the current round contributes
its full 5-stage ladder; the current round contributes the prefix of that
ladder ending at the entry whose phase equals the resolved phase when such an
entry exists, and the empty ladder when none does — in particular whenever
the resolved phase is Appealing or ConfirmingAppeal, the resolver's
constants, which differ from the ladder's AppealRuling / ConfirmAppeal. -/
theorem c6_round_truncation (cfg : CourtConfig) (round : Round)
    (cur : PhaseAndTransition) :
    (round.number < cur.roundId →
      (getRoundPhasesAndTime cfg round cur).map RoundEntry.phase =
          [Phase.JuryDrafting, Phase.VotingPeriod, Phase.RevealVote,
           Phase.AppealRuling, Phase.ConfirmAppeal] ∧
      (getRoundPhasesAndTime cfg round cur).map RoundEntry.endTime =
          [round.createdAt + cfg.termDuration * juryDraftingTerms,
           getTermStartTime (round.draftTermId + round.delayedTerms) cfg
             + cfg.termDuration * cfg.commitTerms,
           getTermStartTime (round.draftTermId + round.delayedTerms) cfg
             + cfg.termDuration * (cfg.commitTerms + cfg.revealTerms),
           getTermStartTime (round.draftTermId + round.delayedTerms) cfg
             + cfg.termDuration * (cfg.commitTerms + cfg.revealTerms
               + cfg.appealTerms),
           getTermStartTime (round.draftTermId + round.delayedTerms) cfg
             + cfg.termDuration * (cfg.commitTerms + cfg.revealTerms
               + cfg.appealTerms + cfg.appealConfirmationTerms)]) ∧
    (cur.roundId ≤ round.number →
      getRoundPhasesAndTime cfg round cur =
        (getRoundPhasesAndTime cfg round
            { cur with roundId := round.number + 1 }).take
          (match [Phase.JuryDrafting, Phase.VotingPeriod, Phase.RevealVote,
                  Phase.AppealRuling, Phase.ConfirmAppeal].findIdx?
              (fun p => p == cur.phase) with
           | some i => i + 1
           | none => 0)) ∧
    (cur.roundId ≤ round.number →
      cur.phase = Phase.Appealing ∨ cur.phase = Phase.ConfirmingAppeal →
      getRoundPhasesAndTime cfg round cur = []) := by
  refine ⟨?_, ?_, ?_⟩
  · intro h
    simp only [getRoundPhasesAndTime]
    rw [if_pos h]
    exact ⟨by simp, by simp⟩
  · intro h
    obtain ⟨p, nt, rid, ru⟩ := cur
    simp only at h
    have hlt : ¬ round.number < rid := Nat.not_lt.mpr h
    cases p <;>
      (simp only [getRoundPhasesAndTime]
       rw [if_neg hlt, if_pos (Nat.lt_succ_self round.number)]
       rfl)
  · intro h hph
    obtain ⟨p, nt, rid, ru⟩ := cur
    simp only at h hph
    have hlt : ¬ round.number < rid := Nat.not_lt.mpr h
    rcases hph with h1 | h1 <;> subst h1 <;>
      (simp only [getRoundPhasesAndTime]
       rw [if_neg hlt]
       rfl)

/-- Counterexample to C6 as stated: a reachable current phase, Appealing
(dispute in the appeal window at 75000), on the round currently adjudicated:
the ladder returned for that round is empty — it is not the ladder truncated
immediately after an entry matching the resolved phase (no entry matches),
and even the already-elapsed VotingPeriod and RevealVote stages are
dropped. -/
theorem c6_counterexample :
    getPhaseAndTransition exDisputeAdj exCfg 75000 =
      Except.ok (some { phase := Phase.Appealing, nextTransition := some 90000,
                        roundId := 0, ruling := none }) ∧
    getRoundPhasesAndTime exCfg exRound0
      { phase := Phase.Appealing, nextTransition := some 90000, roundId := 0,
        ruling := none } = [] := by
  decide

/-- Witness for the amended C6: with resolved phase RevealVote on the current
round, the ladder is the 3-entry prefix of the full ladder (the RevealVote
entry is the third). -/
theorem c6_round_truncation_witness :
    getRoundPhasesAndTime exCfg exRound0
        { phase := Phase.RevealVote, nextTransition := some 70000, roundId := 0,
          ruling := none } =
      (getRoundPhasesAndTime exCfg exRound0
        { phase := Phase.RevealVote, nextTransition := some 70000, roundId := 1,
          ruling := none }).take 3 :=
  (c6_round_truncation exCfg exRound0
    { phase := Phase.RevealVote, nextTransition := some 70000, roundId := 0,
      ruling := none }).2.1 (by decide)
end CourtDashboard
